import Mathlib

/-!
Verification of the core claims about the libsignal-service-javascript
transport engine (src/outgoing_message.js and src/message_receiver.js).

Each JavaScript function relevant to a claim is shallowly embedded as an
executable Lean definition; byte buffers (Uint8Array / ArrayBuffer) are
modelled as `List Nat`, fallible code as `Except`, and the effectful
control flow of the send/receive paths as explicit action traces.
-/

namespace SignalService

/-! ## Padding codec (outgoing_message.js lines 161-182, message_receiver.js lines 619-635) -/

/-- Embeds `OutgoingMessage.getPaddedMessageLength` (outgoing_message.js 161-170):
round `messageLength + 1` up to the next multiple of 160. -/
def getPaddedMessageLength (messageLength : Nat) : Nat :=
  let messageLengthWithTerminator := messageLength + 1
  let messagePartCount := messageLengthWithTerminator / 160
  let messagePartCount :=
    if messageLengthWithTerminator % 160 ≠ 0 then messagePartCount + 1 else messagePartCount
  messagePartCount * 160

/-- `target.set(src)` on a Uint8Array at offset 0: overwrite the first
`src.length` entries of `target` (the send path guarantees `src` fits). -/
def typedArraySet (target src : List Nat) : List Nat :=
  src.take target.length ++ target.drop src.length

/-- Embeds `OutgoingMessage.getPlaintext` (outgoing_message.js 172-182):
allocate a zero-filled buffer of `getPaddedMessageLength(len + 1) - 1` bytes,
copy the encoded message in at offset 0 and write the `0x80` terminator at
index `len`. -/
def getPlaintext (messageBuffer : List Nat) : List Nat :=
  let total := getPaddedMessageLength (messageBuffer.length + 1) - 1
  let plaintext := List.replicate total 0
  let plaintext := typedArraySet plaintext messageBuffer
  plaintext.set messageBuffer.length 0x80

/-- Helper for the loop of `MessageReceiver.unpad`, which walks the padded
buffer from its last byte toward the first; here the argument is the
reversed buffer, so the walk is structural recursion. -/
def unpadRev : List Nat → Except String (Option (List Nat))
  | [] => .ok none
  | b :: rest =>
    if b = 0x80 then .ok (some rest.reverse)
    else if b ≠ 0x00 then .error "Invalid padding"
    else unpadRev rest

/-- Embeds `MessageReceiver.unpad` (message_receiver.js 619-635): scan from the
end; trailing zeros are skipped, a `0x80` yields the prefix before it, any
other nonzero byte raises "Invalid padding", and if the scan exhausts the
buffer the uninitialised `plaintext` variable (i.e. `undefined`) is returned. -/
def unpad (paddedData : List Nat) : Except String (Option (List Nat)) :=
  unpadRev paddedData.reverse

/-- Position of the last non-zero byte, read from the right: drop the zero
tail and look at the next byte. -/
def lastNonzeroByte (l : List Nat) : Option Nat :=
  (l.reverse.dropWhile (fun b => b == 0)).head?

/-! ## DataMessage flag handling (message_receiver.js 1215-1244) -/

/-- Modelled from the spec: `DataMessage.Flags` lives in the protobuf schema
(`protobufs.js`), which is outside src/; spec §9 describes the three flags as
genuine flag bits, whose Signal Service schema values are 1, 2 and 4. -/
def FLAG_END_SESSION : Nat := 1

/-- Modelled from the spec: see `FLAG_END_SESSION`. -/
def FLAG_EXPIRATION_TIMER_UPDATE : Nat := 2

/-- Modelled from the spec: see `FLAG_END_SESSION`. -/
def FLAG_PROFILE_KEY_UPDATE : Nat := 4

/-- Which branch of the flag chain in `processDecrypted` a message takes. -/
inductive FlagsOutcome where
  | endSession
  | expirationTimerUpdate
  | profileKeyUpdate
  | plain
deriving DecidableEq, Repr

/-- Embeds the flag-validation prefix of `MessageReceiver.processDecrypted`
(message_receiver.js 1224-1244): a null `flags` field defaults to 0; the
`END_SESSION` bit short-circuits the whole chain, the
`EXPIRATION_TIMER_UPDATE` and `PROFILE_KEY_UPDATE` branches continue, and
only a nonzero flags value matching none of those bits raises
"Unknown flags in message". -/
def processDecryptedFlags (flags : Option Nat) : Except String FlagsOutcome :=
  let flags := flags.getD 0
  if flags &&& FLAG_END_SESSION ≠ 0 then .ok .endSession
  else if flags &&& FLAG_EXPIRATION_TIMER_UPDATE ≠ 0 then .ok .expirationTimerUpdate
  else if flags &&& FLAG_PROFILE_KEY_UPDATE ≠ 0 then .ok .profileKeyUpdate
  else if flags ≠ 0 then .error "Unknown flags in message"
  else .ok .plain

/-! ## Retry negotiator (message_receiver.js 1102-1198) -/

/-- The fields of a decoded `DataMessage` that `validateRetryContentMessage`
inspects, with JavaScript truthiness flattened: `body` and `group` record
whether the field is truthy, `attachmentsLength` is `attachments.length`. -/
structure RetryDataMessage where
  attachmentsLength : Nat
  body : Bool
  expireTimer : Nat
  flags : Nat
  group : Bool
deriving DecidableEq

/-- The fields of a decoded `Content` that the retry path inspects;
`syncMessage`, `callMessage` and `nullMessage` record field presence. -/
structure RetryContent where
  syncMessage : Bool
  dataMessage : Option RetryDataMessage
  callMessage : Bool
  nullMessage : Bool
deriving DecidableEq

/-- Embeds `MessageReceiver.validateRetryContentMessage`
(message_receiver.js 1102-1132). -/
def validateRetryContentMessage (content : RetryContent) : Bool :=
  if content.syncMessage then false
  else
    let count :=
      (if content.dataMessage.isSome then 1 else 0) +
        (if content.callMessage then 1 else 0) +
        (if content.nullMessage then 1 else 0)
    if count ≠ 1 then false
    else
      match content.dataMessage with
      | some data =>
        if data.attachmentsLength == 0 && !data.body && data.expireTimer == 0 &&
            data.flags == 0 && !data.group then false
        else true
      | none => true

/-- `new Date("2017-06-01T07:00:00.000Z").getTime()` (message_receiver.js 1178). -/
def startOfJune : Nat := 1496300400000

/-- The two dispatch paths available to `tryMessageAgain`. -/
inductive RetryDispatch where
  | legacyDataMessage
  | contentMessage
deriving DecidableEq

/-- Embeds the proto-variant selection of `MessageReceiver.tryMessageAgain`
(message_receiver.js 1134-1198) after a successful pre-key decryption:
`decoded = none` models `Content.decode` throwing, in which case — like a
decode that succeeds but fails validation — the legacy `DataMessage` path
(`innerHandleLegacyMessage`) is taken. -/
def tryMessageAgainDispatch (sentAt : Nat) (decoded : Option RetryContent) :
    RetryDispatch :=
  if sentAt < startOfJune then .legacyDataMessage
  else
    match decoded with
    | some content =>
      if validateRetryContentMessage content then .contentMessage
      else .legacyDataMessage
    | none => .legacyDataMessage

/-! ## The base64 helper bodies (message_receiver.js 1363-1377) -/

/-- A statement of a JavaScript function body: either a bare expression
statement or a return statement. -/
inductive JsStmt (α : Type) where
  | exprStmt (e : α)
  | returnStmt (e : α)

/-- Run a JavaScript function body: collect the expressions that are
evaluated and the returned value; a body with no executed return statement
returns `none` (i.e. `undefined`). -/
def runBody {α : Type} : List (JsStmt α) → List α × Option α
  | [] => ([], none)
  | .exprStmt e :: rest =>
    let p := runBody rest
    (e :: p.1, p.2)
  | .returnStmt e :: _ => ([e], some e)

/-- Embeds `MessageReceiver.stringToArrayBuffer` (message_receiver.js
1363-1365): the body is the single expression statement
`Promise.resolve(ByteBuffer.wrap(string, "binary").toArrayBuffer())` — there
is no return statement. `toArrayBuffer` abstracts the external ByteBuffer
conversion inside the promise. -/
def stringToArrayBufferBody (toArrayBuffer : String → List Nat) (string : String) :
    List (JsStmt (List Nat)) :=
  [.exprStmt (toArrayBuffer string)]

/-- Embeds `MessageReceiver.arrayBufferToString` (message_receiver.js
1367-1369): a single expression statement, no return. -/
def arrayBufferToStringBody (toBinaryString : List Nat → String)
    (arrayBuffer : List Nat) : List (JsStmt String) :=
  [.exprStmt (toBinaryString arrayBuffer)]

/-- Embeds `MessageReceiver.stringToArrayBufferBase64` (message_receiver.js
1371-1373): the body is the single expression statement
`callWorker("stringToArrayBufferBase64", string)` — no return.
`callWorkerB64` abstracts the worker call's eventual value. -/
def stringToArrayBufferBase64Body (callWorkerB64 : String → List Nat)
    (string : String) : List (JsStmt (List Nat)) :=
  [.exprStmt (callWorkerB64 string)]

/-- Embeds `MessageReceiver.arrayBufferToStringBase64` (message_receiver.js
1375-1377): a single expression statement, no return. -/
def arrayBufferToStringBase64Body (callWorkerFromB64 : List Nat → String)
    (arrayBuffer : List Nat) : List (JsStmt String) :=
  [.exprStmt (callWorkerFromB64 arrayBuffer)]

/-! ## Inbound request handling (message_receiver.js 255-314, 493-504) -/

/-- The externally visible actions of `handleRequest`. `storeUnprocessed`
is the successful completion of `addToCache`'s `store.addUnprocessed`, i.e.
the envelope's bytes becoming durable. -/
inductive RcvAction where
  | respond (status : Nat)
  | storeUnprocessed
  | queueEnvelope
  | dispatchErrorEvent
  | onEmpty
deriving DecidableEq

/-- Embeds `MessageReceiver.handleRequest` (message_receiver.js 255-314) as
the sequence of externally visible actions, branching on: `isMessagePath`
(`request.path === "/api/v1/message"`), `isQueueEmptyPut`
(`PUT /api/v1/queue/empty`), `decodeOk` (the websocket-level decrypt and
`Envelope.decode` succeed), `blocked` (`isBlocked(envelope.source)`), and
`cacheOk` (`addToCache`, i.e. `store.addUnprocessed`, succeeds). A failed
cache insert stores nothing durably and responds 500. -/
def handleRequest (isMessagePath isQueueEmptyPut decodeOk blocked cacheOk : Bool) :
    List RcvAction :=
  if !isMessagePath then
    .respond 200 :: (if isQueueEmptyPut then [.onEmpty] else [])
  else if !decodeOk then [.respond 500, .dispatchErrorEvent]
  else if blocked then [.respond 200]
  else if cacheOk then [.storeUnprocessed, .respond 200, .queueEnvelope]
  else [.respond 500]

/-! ## Startup cache scan (message_receiver.js 383-389, 455-491) -/

/-- A durable unprocessed-cache entry, reduced to the fields the startup
scan inspects: its id and its persisted `attempts` counter. -/
structure UnprocessedItem where
  id : Nat
  attempts : Nat
deriving DecidableEq

/-- Store operations and dispatches performed by the startup scan. -/
inductive CacheAction where
  | removeAll
  | removeUnprocessed (id : Nat)
  | updateUnprocessed (id : Nat) (attempts : Nat)
  | dispatch (id : Nat)
deriving DecidableEq

/-- The per-item store operations of `MessageReceiver.getAllFromCache`
(message_receiver.js 470-490): compute `attempts = 1 + (item.attempts || 0)`;
at or above 3, remove the item from the store; below, persist the new count. -/
def getAllFromCacheActions (items : List UnprocessedItem) : List CacheAction :=
  items.map fun item =>
    if 3 ≤ 1 + item.attempts then .removeUnprocessed item.id
    else .updateUnprocessed item.id (1 + item.attempts)

/-- Embeds `queueAllCached` over `getAllFromCache` (message_receiver.js
383-389, 455-491) as an action trace: if more than 250 items are cached,
purge everything and dispatch nothing; otherwise perform every per-item store
operation (the `Promise.all` inside `getAllFromCache` settles before it
returns), and only then dispatch each returned item in order — note that
`getAllFromCache` returns every loaded item, removed ones included. -/
def queueAllCachedTrace (items : List UnprocessedItem) : List CacheAction :=
  if 250 < items.length then [.removeAll]
  else getAllFromCacheActions items ++ items.map fun item => .dispatch item.id

/-- Effect of one scan action on the durable store (dispatching touches
nothing; `updateUnprocessed` replaces, never inserts, per the Store
contract). -/
def applyCacheAction (store : List UnprocessedItem) : CacheAction → List UnprocessedItem
  | .removeAll => []
  | .removeUnprocessed id => store.filter fun item => item.id != id
  | .updateUnprocessed id attempts =>
    store.map fun item => if item.id = id then { item with attempts } else item
  | .dispatch _ => store

/-- The durable store after a sequence of scan actions. -/
def runCacheActions (store : List UnprocessedItem) (actions : List CacheAction) :
    List UnprocessedItem :=
  actions.foldl applyCacheAction store

/-! ## Send engine (outgoing_message.js 65-137, 184-308) -/

/-- Outcome of one `transmitMessage`/encrypt attempt inside `doSendMessage`,
as discriminated by its catch clause. -/
inductive SendOutcome where
  | ok
  | http409 (extraDevices missingDevices : List Nat)
  | http410 (staleDevices : List Nat)
  | identityKeyChanged
  | otherFailure
deriving DecidableEq

/-- One server round in a `doSendMessage` run: the outcome of the attempt
and, when the engine recovers and reloads, the device ids the Store returns
to `reloadDevicesAndSend`. -/
structure SendStep where
  outcome : SendOutcome
  devicesAfterReload : List Nat
deriving DecidableEq

/-- The externally visible actions of `doSendMessage` and its recovery
path. -/
inductive SendAction where
  | encryptAndTransmit (deviceIds : List Nat)
  | closeSession (deviceId : Nat)
  | removeSessions (deviceIds : List Nat)
  | fetchKeys (devices : List Nat)
  | registerError (reason : String)
  | completeNumber
  | addSuccessfulNumber
  | throwIdentityKeyChanged
deriving DecidableEq

/-- Embeds `OutgoingMessage.doSendMessage` (outgoing_message.js 184-273) with
`reloadDevicesAndSend` (65-77) inlined, as the action trace over a list of
server rounds: encrypt-and-POST to the given devices; on success record the
number and complete; on 409/410 with `recurse` false, register the
"Hit retry limit" error and complete; on 410 close the sessions of the
reported `staleDevices`, refetch keys for exactly those devices, reload the
device list and retry with `recurse = false`; on 409 remove the sessions of
`extraDevices`, refetch keys for `missingDevices` and retry with
`recurse = true`; identity-key changes rethrow; anything else registers
"Failed to create or send message". An exhausted round list leaves the
attempt pending. -/
def doSendMessageTrace : List Nat → Bool → List SendStep → List SendAction
  | deviceIds, _, [] => [.encryptAndTransmit deviceIds]
  | deviceIds, recurse, step :: rest =>
    .encryptAndTransmit deviceIds ::
      match step.outcome with
      | .ok => [.addSuccessfulNumber, .completeNumber]
      | .http410 staleDevices =>
        if recurse then
          staleDevices.map .closeSession ++ [.fetchKeys staleDevices] ++
            (if step.devicesAfterReload.isEmpty then
              [.registerError "Got empty device list when loading device keys",
                .completeNumber]
            else doSendMessageTrace step.devicesAfterReload false rest)
        else
          [.registerError "Hit retry limit attempting to reload device list",
            .completeNumber]
      | .http409 extraDevices missingDevices =>
        if recurse then
          .removeSessions extraDevices :: .fetchKeys missingDevices ::
            (if step.devicesAfterReload.isEmpty then
              [.registerError "Got empty device list when loading device keys",
                .completeNumber]
            else doSendMessageTrace step.devicesAfterReload true rest)
        else
          [.registerError "Hit retry limit attempting to reload device list",
            .completeNumber]
      | .identityKeyChanged => [.throwIdentityKeyChanged]
      | .otherFailure =>
        [.registerError "Failed to create or send message", .completeNumber]

/-- True exactly for the HTTP 409 and 410 outcomes. -/
def isDeviceConflict : SendOutcome → Bool
  | .http409 _ _ => true
  | .http410 _ => true
  | _ => false

/-! ## Key fetching (outgoing_message.js 79-137, 298-308) -/

/-- Outcome of `server.getKeysForNumber(number, device)` for one device, as
discriminated by the catch clause in `getKeysForNumber`. -/
inductive KeyFetchOutcome where
  | ok
  | http404
  | networkError
deriving DecidableEq

/-- The externally visible actions of `getKeysForNumber` with an explicit
device list. `fetchDeviceKeys d` is the individual
`server.getKeysForNumber(number, d)` call (whose successful pre-key
processing through `SessionBuilder` is external); `removeSession d` is
`removeDeviceIdsForNumber(number, [d])`, i.e. `store.removeSession`. -/
inductive KeyAction where
  | fetchDeviceKeys (device : Nat)
  | removeSession (device : Nat)
deriving DecidableEq

/-- How a `getKeysForNumber` run can fail. -/
inductive KeyFetchError where
  | unregisteredUser
  | httpError
deriving DecidableEq

/-- Embeds the `updateDevices`-list branch of `OutgoingMessage.getKeysForNumber`
(outgoing_message.js 114-137): each listed device is fetched individually,
serially, on one promise chain; a 404 for device 1 raises the fatal
`UnregisteredUserError` (the rejected chain skips the remaining devices), a
404 for any other device removes that device's session and continues, and any
other fetch error rejects the chain as-is. -/
def getKeysForNumberListed (f : Nat → KeyFetchOutcome) :
    List Nat → List KeyAction × Except KeyFetchError Unit
  | [] => ([], .ok ())
  | d :: rest =>
    match f d with
    | .ok =>
      let p := getKeysForNumberListed f rest
      (.fetchDeviceKeys d :: p.1, p.2)
    | .http404 =>
      if d = 1 then ([.fetchDeviceKeys d], .error .unregisteredUser)
      else
        let p := getKeysForNumberListed f rest
        (.fetchDeviceKeys d :: .removeSession d :: p.1, p.2)
    | .networkError => ([.fetchDeviceKeys d], .error .httpError)

/-! END OF DEFINITIONS; theorems follow. -/

/-! ### Arithmetic facts about the padded length -/

theorem getPaddedMessageLength_spec (L : Nat) :
    getPaddedMessageLength L % 160 = 0 ∧ L + 1 ≤ getPaddedMessageLength L ∧
      0 < getPaddedMessageLength L := by
  unfold getPaddedMessageLength
  have h := Nat.div_add_mod (L + 1) 160
  have h2 : (L + 1) % 160 < 160 := Nat.mod_lt _ (by omega)
  by_cases hz : (L + 1) % 160 ≠ 0 <;> simp [hz] <;> omega

theorem getPlaintext_eq (m : List Nat) :
    ∃ k, getPlaintext m = m ++ 0x80 :: List.replicate k 0 ∧
      m.length + 1 + k = getPaddedMessageLength (m.length + 1) - 1 := by
  obtain ⟨hmod, hle, hpos⟩ := getPaddedMessageLength_spec (m.length + 1)
  set total := getPaddedMessageLength (m.length + 1) - 1 with htot
  have htotal : m.length + 1 ≤ total := by omega
  refine ⟨total - (m.length + 1), ?_, by omega⟩
  unfold getPlaintext typedArraySet
  simp only [List.length_replicate]
  rw [List.take_of_length_le (by omega), List.drop_replicate]
  have hsplit : List.replicate (total - m.length) (0 : Nat)
      = 0 :: List.replicate (total - (m.length + 1)) 0 := by
    have : total - m.length = (total - (m.length + 1)) + 1 := by omega
    rw [this, List.replicate_succ]
  rw [← htot, hsplit]
  rw [List.set_append_right _ _ (Nat.le_refl _)]
  simp

/-! ### The unpad scan, characterised -/

theorem unpadRev_zero_prefix (k : Nat) (t : List Nat) :
    unpadRev (List.replicate k 0 ++ t) = unpadRev t := by
  induction k with
  | zero => simp
  | succ n ih => simpa [List.replicate_succ, unpadRev] using ih

theorem unpadRev_error_iff (r : List Nat) :
    unpadRev r = .error "Invalid padding" ↔
      ∃ n b t, r = List.replicate n 0 ++ b :: t ∧ b ≠ 0 ∧ b ≠ 0x80 := by
  induction r with
  | nil =>
    simp only [unpadRev]
    constructor
    · intro h; exact absurd h (by simp)
    · rintro ⟨n, b, t, h, hb, h80⟩
      exact absurd h (by cases n <;> simp [List.replicate_succ])
  | cons b0 rest ih =>
    by_cases h80 : b0 = 0x80
    · subst h80
      simp only [unpadRev, if_pos rfl]
      constructor
      · intro h; exact absurd h (by simp)
      · rintro ⟨n, b, t, h, hb, hb80⟩
        cases n with
        | zero => simp at h; omega
        | succ n => rw [List.replicate_succ] at h; simp at h
    · by_cases hz : b0 = 0
      · subst hz
        rw [show unpadRev (0 :: rest) = unpadRev rest from by simp [unpadRev], ih]
        constructor
        · rintro ⟨n, b, t, h, hb, hb80⟩
          exact ⟨n + 1, b, t, by rw [List.replicate_succ]; simp [h], hb, hb80⟩
        · rintro ⟨n, b, t, h, hb, hb80⟩
          cases n with
          | zero => simp at h; omega
          | succ n =>
            rw [List.replicate_succ] at h
            simp only [List.cons_append, List.cons.injEq] at h
            exact ⟨n, b, t, h.2, hb, hb80⟩
      · constructor
        · intro _; exact ⟨0, b0, rest, by simp, hz, h80⟩
        · intro _; simp [unpadRev, h80, hz]

theorem dropWhile_zero_replicate (k : Nat) (l : List Nat) :
    List.dropWhile (fun b => b == 0) (List.replicate k 0 ++ l)
      = List.dropWhile (fun b => b == 0) l := by
  induction k with
  | zero => simp
  | succ n ih => simp [List.replicate_succ, ih]

set_option maxRecDepth 4000 in
/-- C1 counterexample: on the empty plaintext, the padded buffer built by
`getPlaintext` has length 159, which is not a multiple of 160. -/
theorem padded_length_not_multiple_of_160 :
    (getPlaintext []).length % 160 ≠ 0 := by decide

/-- C1 (amended): for every plaintext, the padded buffer built by
`getPlaintext` has length ≡ 159 (mod 160) — that is, length-plus-one is a
multiple of 160, not the length itself — and its last non-zero byte is
`0x80`. -/
theorem padded_length_mod_and_terminator (m : List Nat) :
    (getPlaintext m).length % 160 = 159 ∧
      lastNonzeroByte (getPlaintext m) = some 0x80 := by
  obtain ⟨k, heq, hlen⟩ := getPlaintext_eq m
  obtain ⟨hmod, hle, hpos⟩ := getPaddedMessageLength_spec (m.length + 1)
  constructor
  · rw [heq]; simp only [List.length_append, List.length_cons, List.length_replicate]
    omega
  · rw [heq]
    unfold lastNonzeroByte
    rw [List.reverse_append, List.reverse_cons, List.reverse_replicate,
      List.append_assoc, List.singleton_append, dropWhile_zero_replicate]
    simp [List.dropWhile]

/-- C2: unpadding the buffer built by `getPlaintext` (plaintext bytes, then
`0x80`, then zero fill) recovers exactly the original plaintext bytes. -/
theorem unpad_getPlaintext_roundtrip (m : List Nat) :
    unpad (getPlaintext m) = .ok (some m) := by
  obtain ⟨k, heq, _⟩ := getPlaintext_eq m
  rw [heq]
  unfold unpad
  rw [List.reverse_append, List.reverse_cons, List.reverse_replicate,
    List.append_assoc, List.singleton_append, unpadRev_zero_prefix]
  simp [unpadRev]

/-- C10: `unpad` raises "Invalid padding" iff, scanning from the last byte
toward the first, some byte that is neither `0x00` nor `0x80` appears before
any `0x80` (i.e. the input ends with a nonzero non-`0x80` byte followed only
by zeros); an input that is entirely zeros — including the empty input —
raises no error and yields no plaintext (`undefined`). -/
theorem unpad_error_characterisation (l : List Nat) :
    (unpad l = .error "Invalid padding" ↔
      ∃ n b t, l = t ++ b :: List.replicate n 0 ∧ b ≠ 0 ∧ b ≠ 0x80) ∧
      ((∀ b ∈ l, b = 0) → unpad l = .ok none) := by
  constructor
  · rw [unpad, unpadRev_error_iff]
    constructor
    · rintro ⟨n, b, t, h, hb, hb80⟩
      refine ⟨n, b, t.reverse, ?_, hb, hb80⟩
      have := congrArg List.reverse h
      rwa [List.reverse_reverse, List.reverse_append, List.reverse_cons,
        List.reverse_replicate, List.append_assoc, List.singleton_append] at this
    · rintro ⟨n, b, t, h, hb, hb80⟩
      refine ⟨n, b, t.reverse, ?_, hb, hb80⟩
      rw [h, List.reverse_append, List.reverse_cons, List.reverse_replicate,
        List.append_assoc, List.singleton_append]
  · intro hz
    have : l = List.replicate l.length 0 := List.eq_replicate_of_mem hz
    rw [this, unpad, List.reverse_replicate,
      show List.replicate l.length (0 : Nat) = List.replicate l.length 0 ++ [] from
        by simp, unpadRev_zero_prefix]
    rfl

/-- C10 witness: an all-zero buffer unpads to no plaintext without error, and
a buffer whose last non-zero byte is 9 (not `0x80`) raises "Invalid padding". -/
theorem unpad_error_characterisation_witness :
    unpad [0, 0] = .ok none ∧ unpad [0, 9, 0] = .error "Invalid padding" :=
  ⟨(unpad_error_characterisation [0, 0]).2 (by decide),
    (unpad_error_characterisation [0, 9, 0]).1.mpr
      ⟨1, 9, [0], by decide, by decide, by decide⟩⟩

/-- C5 counterexample: the flags value 9 sets the unknown bit 8 alongside
`END_SESSION`, yet `processDecrypted` accepts it through the `END_SESSION`
short-circuit instead of raising the UnknownFlags error. -/
theorem unknown_flag_with_end_session_accepted :
    (9 &&& 8 ≠ 0 ∧
        8 &&& (FLAG_END_SESSION ||| FLAG_EXPIRATION_TIMER_UPDATE |||
          FLAG_PROFILE_KEY_UPDATE) = 0) ∧
      processDecryptedFlags (some 9) = .ok .endSession :=
  ⟨by decide, rfl⟩

/-- C5 (amended): `processDecrypted` raises the UnknownFlags error exactly
when the flags value is nonzero and sets none of `END_SESSION`,
`EXPIRATION_TIMER_UPDATE`, `PROFILE_KEY_UPDATE`; unknown bits accompanied by
a known bit are accepted under that bit's handling. -/
theorem processDecrypted_unknown_flags_iff (flags : Nat) :
    processDecryptedFlags (some flags) = .error "Unknown flags in message" ↔
      flags ≠ 0 ∧ flags &&& FLAG_END_SESSION = 0 ∧
        flags &&& FLAG_EXPIRATION_TIMER_UPDATE = 0 ∧
        flags &&& FLAG_PROFILE_KEY_UPDATE = 0 := by
  unfold processDecryptedFlags
  by_cases h1 : flags &&& FLAG_END_SESSION = 0 <;>
    by_cases h2 : flags &&& FLAG_EXPIRATION_TIMER_UPDATE = 0 <;>
      by_cases h3 : flags &&& FLAG_PROFILE_KEY_UPDATE = 0 <;>
        by_cases h4 : flags = 0 <;>
          simp [h1, h2, h3, h4]

/-- C9: all four codec helpers — `stringToArrayBuffer`,
`arrayBufferToString`, `stringToArrayBufferBase64`,
`arrayBufferToStringBase64` — evaluate their inner promise expression but
contain no return statement, so every call yields `undefined` to the caller
rather than the conversion result. -/
theorem codec_helpers_return_undefined (conv1 : String → List Nat)
    (conv2 : List Nat → String) (conv3 : String → List Nat)
    (conv4 : List Nat → String) (s : String) (buf : List Nat) :
    runBody (stringToArrayBufferBody conv1 s) = ([conv1 s], none) ∧
      runBody (arrayBufferToStringBody conv2 buf) = ([conv2 buf], none) ∧
      runBody (stringToArrayBufferBase64Body conv3 s) = ([conv3 s], none) ∧
      runBody (arrayBufferToStringBase64Body conv4 buf) = ([conv4 buf], none) :=
  ⟨rfl, rfl, rfl, rfl⟩

set_option linter.unnecessarySeqFocus false in
/-- C8: after a successful pre-key decryption, `tryMessageAgain` dispatches
the plaintext as `Content` exactly when `sent_at` is at least
1496300400000 ms (2017-06-01T07:00:00Z), `Content.decode` succeeds and
`validateRetryContentMessage` passes; in every other case — early `sent_at`,
decode failure, or failed validation — it falls back to the legacy
`DataMessage` path. Validation passes exactly when there is no sync message,
exactly one of dataMessage/callMessage/nullMessage is set, and a dataMessage
has at least one of attachments/body/expireTimer/flags/group. -/
theorem tryMessageAgain_dispatch_characterisation (sentAt : Nat)
    (decoded : Option RetryContent) :
    (tryMessageAgainDispatch sentAt decoded = .contentMessage ↔
      startOfJune ≤ sentAt ∧
        ∃ c, decoded = some c ∧ validateRetryContentMessage c = true) ∧
      (tryMessageAgainDispatch sentAt decoded ≠ .contentMessage →
        tryMessageAgainDispatch sentAt decoded = .legacyDataMessage) ∧
      ∀ c, validateRetryContentMessage c = true ↔
        c.syncMessage = false ∧
          ((if c.dataMessage.isSome then 1 else 0) +
            (if c.callMessage then 1 else 0) +
            (if c.nullMessage then 1 else 0) = 1) ∧
          ∀ d, c.dataMessage = some d →
            d.attachmentsLength ≠ 0 ∨ d.body = true ∨ d.expireTimer ≠ 0 ∨
              d.flags ≠ 0 ∨ d.group = true := by
  refine ⟨?_, ?_, ?_⟩
  · by_cases hlt : sentAt < startOfJune
    · simp only [tryMessageAgainDispatch, if_pos hlt]
      constructor
      · intro h; exact absurd h (by simp)
      · rintro ⟨hle, -⟩; exact absurd hle (by omega)
    · cases decoded with
      | none => simp [tryMessageAgainDispatch, hlt]
      | some c =>
        by_cases hv : validateRetryContentMessage c = true
        · simp [tryMessageAgainDispatch, hlt, hv, Nat.not_lt.mp hlt]
        · simp [tryMessageAgainDispatch, hlt, hv]
  · intro h
    cases hd : tryMessageAgainDispatch sentAt decoded with
    | legacyDataMessage => rfl
    | contentMessage => exact absurd hd h
  · intro c
    obtain ⟨sync, dm, call, null⟩ := c
    cases sync <;> cases call <;> cases null <;> cases dm <;>
      simp [validateRetryContentMessage, Bool.and_eq_true, Bool.not_eq_true',
        beq_iff_eq] <;>
      tauto

/-- C3: during `handleRequest` for PUT /api/v1/message, for an envelope
accepted from the socket (websocket decrypt and `Envelope.decode` succeeded,
source not blocked), every 200 response in the action trace occurs strictly
after the successful durable cache insert (`addToCache` /
`store.addUnprocessed`), whether or not the insert succeeds. -/
theorem ack_only_after_cache_insert (cacheOk : Bool) (i : Nat)
    (h : (handleRequest true false true false cacheOk).get? i =
      some (.respond 200)) :
    ∃ j, j < i ∧ (handleRequest true false true false cacheOk).get? j =
      some .storeUnprocessed := by
  cases cacheOk with
  | false =>
    exfalso
    rcases i with _ | i <;> simp [handleRequest, List.get?] at h
  | true =>
    rcases i with _ | _ | i
    · simp [handleRequest, List.get?] at h
    · exact ⟨0, by omega, rfl⟩
    · exfalso
      rcases i with _ | i <;> simp [handleRequest, List.get?] at h

/-- C3 witness: with the cache insert succeeding, the 200 response sits at
index 1 of the trace, and the durable insert indeed precedes it at index 0. -/
theorem ack_only_after_cache_insert_witness :
    ∃ j, j < 1 ∧ (handleRequest true false true false true).get? j =
      some .storeUnprocessed :=
  ack_only_after_cache_insert true 1 rfl

/-- C6: when `doSendMessage` (first attempt, `recurse = true`) hits an HTTP
410, it closes the sessions of the reported `staleDevices`, refetches keys
for exactly those devices, and retries with `recurse = false`; if that second
attempt fails with 410 or 409 again, it registers the error with reason
"Hit retry limit attempting to reload device list" and completes the number
with no further attempt. -/
theorem send_410_recovery (deviceIds staleDevices reloaded : List Nat)
    (step2 : SendStep) (rest : List SendStep)
    (hreload : reloaded ≠ [])
    (hconflict : isDeviceConflict step2.outcome = true) :
    doSendMessageTrace deviceIds true
        ({ outcome := .http410 staleDevices, devicesAfterReload := reloaded } ::
          step2 :: rest) =
      .encryptAndTransmit deviceIds ::
        staleDevices.map .closeSession ++ [.fetchKeys staleDevices] ++
          [.encryptAndTransmit reloaded,
            .registerError "Hit retry limit attempting to reload device list",
            .completeNumber] := by
  have hne : reloaded.isEmpty = false := by
    cases reloaded with
    | nil => exact absurd rfl hreload
    | cons a t => rfl
  obtain ⟨o, d2⟩ := step2
  cases o <;> simp_all [doSendMessageTrace, isDeviceConflict]

/-- C6 witness: a concrete send to devices [1, 2] where the server answers
410 `{staleDevices: [1]}` twice in a row. -/
theorem send_410_recovery_witness :
    doSendMessageTrace [1, 2] true
        [{ outcome := .http410 [1], devicesAfterReload := [1, 2] },
          { outcome := .http410 [2], devicesAfterReload := [1, 2] }] =
      [.encryptAndTransmit [1, 2], .closeSession 1, .fetchKeys [1],
        .encryptAndTransmit [1, 2],
        .registerError "Hit retry limit attempting to reload device list",
        .completeNumber] := by
  have h := send_410_recovery [1, 2] [1] [1, 2]
    { outcome := .http410 [2], devicesAfterReload := [1, 2] } []
    (by simp) (by rfl)
  simpa using h

/-- C7: `getKeysForNumber` with an explicit `updateDevices` list fetches the
listed devices individually and serially; if every fetch before some device
`d` succeeds and `d`'s fetch returns 404, then for `d ≠ 1` the run removes
`d`'s session from the Store and continues with the remaining devices
exactly as it would have processed them alone, while for `d = 1` the run
stops with the fatal `UnregisteredUserError` and the remaining devices are
never fetched. -/
theorem getKeys_404_handling (f : Nat → KeyFetchOutcome) (pre : List Nat)
    (d : Nat) (post : List Nat)
    (hpre : ∀ e ∈ pre, f e = .ok) (hd : f d = .http404) :
    (d ≠ 1 →
      getKeysForNumberListed f (pre ++ d :: post) =
        (pre.map .fetchDeviceKeys ++ .fetchDeviceKeys d :: .removeSession d ::
          (getKeysForNumberListed f post).1,
          (getKeysForNumberListed f post).2)) ∧
      (d = 1 →
        getKeysForNumberListed f (pre ++ d :: post) =
          (pre.map .fetchDeviceKeys ++ [.fetchDeviceKeys d],
            .error .unregisteredUser)) := by
  induction pre with
  | nil =>
    constructor
    · intro hne
      simp [getKeysForNumberListed, hd, hne]
    · intro h1
      subst h1
      simp [getKeysForNumberListed, hd]
  | cons e rest ih =>
    have he : f e = .ok := hpre e (by simp)
    have ih2 := ih fun x hx => hpre x (by simp [hx])
    constructor
    · intro hne
      have h2 := ih2.1 hne
      simp only [List.cons_append, getKeysForNumberListed, he, List.append_eq,
        List.map_cons, h2]
    · intro h1
      have h2 := ih2.2 h1
      simp only [List.cons_append, getKeysForNumberListed, he, List.append_eq,
        List.map_cons, h2]

/-- C7 witness: fetching devices [3, 2, 5] where only device 2 404s: device
2's session is removed and devices 3 and 5 are still fetched, in order. -/
theorem getKeys_404_handling_witness :
    getKeysForNumberListed
        (fun d => if d = 2 then .http404 else .ok) [3, 2, 5] =
      ([.fetchDeviceKeys 3, .fetchDeviceKeys 2, .removeSession 2,
        .fetchDeviceKeys 5], .ok ()) := by
  have h := (getKeys_404_handling (fun d => if d = 2 then .http404 else .ok)
    [3] 2 [5] (by decide) (by rfl)).1 (by decide)
  exact h

theorem applyCacheAction_preserves_absent (x : Nat) (a : CacheAction)
    (store : List UnprocessedItem) (h : ∀ it ∈ store, it.id ≠ x) :
    ∀ it ∈ applyCacheAction store a, it.id ≠ x := by
  cases a with
  | removeAll => simp [applyCacheAction]
  | removeUnprocessed y =>
    intro it hit
    exact h it (List.mem_of_mem_filter hit)
  | updateUnprocessed y n =>
    intro it hit
    simp only [applyCacheAction, List.mem_map] at hit
    obtain ⟨jt, hjt, rfl⟩ := hit
    have hne := h jt hjt
    by_cases hy : jt.id = y
    · simpa [hy] using hne
    · simpa [hy] using hne
  | dispatch y => simpa [applyCacheAction] using h

theorem applyCacheAction_remove_absent (x : Nat) (store : List UnprocessedItem) :
    ∀ it ∈ applyCacheAction store (.removeUnprocessed x), it.id ≠ x := by
  intro it hit
  simp only [applyCacheAction, List.mem_filter, bne_iff_ne, ne_eq] at hit
  exact hit.2

theorem foldl_preserves_absent (x : Nat) (actions : List CacheAction) :
    ∀ store, (∀ it ∈ store, it.id ≠ x) →
      ∀ it ∈ actions.foldl applyCacheAction store, it.id ≠ x := by
  induction actions with
  | nil => intro store h; simpa using h
  | cons a rest ih =>
    intro store h
    exact ih _ (applyCacheAction_preserves_absent x a store h)

/-- C4: in the startup scan (`queueAllCached` over `getAllFromCache`, with at
most 250 cached items), every cached item has its attempts counter
incremented; an item whose incremented count reaches 3 is removed from the
unprocessed store strictly before its dispatch runs and is absent from the
store once the scan completes (so no later scan can dispatch it again),
while an item below the threshold has its new attempts count persisted and
is then enqueued for processing. -/
theorem startup_scan_attempt_handling (items : List UnprocessedItem)
    (it : UnprocessedItem) (hlen : items.length ≤ 250) (hmem : it ∈ items) :
    (3 ≤ 1 + it.attempts →
      (∃ i j, i < j ∧
        (queueAllCachedTrace items).get? i =
          some (.removeUnprocessed it.id) ∧
        (queueAllCachedTrace items).get? j = some (.dispatch it.id)) ∧
      ∀ jt ∈ runCacheActions items (queueAllCachedTrace items),
        jt.id ≠ it.id) ∧
    (1 + it.attempts < 3 →
      ∃ i j, i < j ∧
        (queueAllCachedTrace items).get? i =
          some (.updateUnprocessed it.id (1 + it.attempts)) ∧
        (queueAllCachedTrace items).get? j = some (.dispatch it.id)) := by
  have htr : queueAllCachedTrace items =
      getAllFromCacheActions items ++ items.map fun x => .dispatch x.id := by
    rw [queueAllCachedTrace, if_neg (by omega)]
  obtain ⟨n, hn⟩ := List.mem_iff_get.mp hmem
  have hlenA : (getAllFromCacheActions items).length = items.length :=
    List.length_map _ _
  have hgetA : (queueAllCachedTrace items).get? n.val =
      some (if 3 ≤ 1 + it.attempts then .removeUnprocessed it.id
        else .updateUnprocessed it.id (1 + it.attempts)) := by
    rw [htr, List.get?_append (by rw [hlenA]; exact n.isLt),
      getAllFromCacheActions, List.get?_map, List.get?_eq_get n.isLt, hn]
    rfl
  have hgetB : (queueAllCachedTrace items).get? (items.length + n.val) =
      some (.dispatch it.id) := by
    rw [htr, List.get?_append_right (by omega)]
    simp only [hlenA, Nat.add_sub_cancel_left]
    rw [List.get?_map, List.get?_eq_get n.isLt, hn]
    rfl
  have hij : n.val < items.length + n.val := by
    have := n.isLt; omega
  constructor
  · intro h3
    constructor
    · exact ⟨n.val, items.length + n.val, hij, by rwa [if_pos h3] at hgetA, hgetB⟩
    · have hsplit : queueAllCachedTrace items =
          (queueAllCachedTrace items).take n.val ++
            .removeUnprocessed it.id ::
              (queueAllCachedTrace items).drop (n.val + 1) := by
        conv_lhs => rw [← List.take_append_drop n.val (queueAllCachedTrace items)]
        have hlt : n.val < (queueAllCachedTrace items).length := by
          rw [htr, List.length_append, hlenA]
          have := n.isLt; omega
        rw [List.drop_eq_get_cons hlt]
        have hg : (queueAllCachedTrace items).get ⟨n.val, hlt⟩ =
            .removeUnprocessed it.id := by
          have h' := hgetA
          rw [if_pos h3, List.get?_eq_get hlt] at h'
          exact Option.some.inj h'
        rw [hg]
      rw [runCacheActions, hsplit, List.foldl_append, List.foldl_cons]
      exact foldl_preserves_absent it.id _ _
        (applyCacheAction_remove_absent it.id _)
  · intro h3
    refine ⟨n.val, items.length + n.val, hij, ?_, hgetB⟩
    rwa [if_neg (by omega)] at hgetA

/-- C4 witness: with cached items (id 10, attempts 2) and (id 20, attempts 0),
item 10's incremented count reaches 3: it is removed (trace index 0) before
its dispatch (trace index 2) and is gone from the store after the scan. -/
theorem startup_scan_attempt_handling_witness :
    (∃ i j, i < j ∧
      (queueAllCachedTrace [⟨10, 2⟩, ⟨20, 0⟩]).get? i =
        some (.removeUnprocessed 10) ∧
      (queueAllCachedTrace [⟨10, 2⟩, ⟨20, 0⟩]).get? j = some (.dispatch 10)) ∧
    ∀ jt ∈ runCacheActions [⟨10, 2⟩, ⟨20, 0⟩]
        (queueAllCachedTrace [⟨10, 2⟩, ⟨20, 0⟩]), jt.id ≠ 10 :=
  (startup_scan_attempt_handling [⟨10, 2⟩, ⟨20, 0⟩] ⟨10, 2⟩ (by decide)
    (by decide)).1 (by decide)

end SignalService
